import Mathlib

/-!
Verification of the mount lookup filter plugin
(`ansible/filter_plugins/mounts.py`).

The module defines three helpers over a caller-supplied ordered sequence of
mount records (Python dicts with string keys and values):

* `device_for_mount mountpoint mounts fstype` — linear scan returning the
  `device` field of the first record whose `mount` field equals `mountpoint`
  (and, when `fstype` is supplied, whose `fstype` field equals it), raising
  `AnsibleFilterError` when no record matches;
* `uuid_for_mount mountpoint mounts` — the same scan without a fstype filter,
  returning the `uuid` field;
* `to_systemd_mount_unit path` — `path.lstrip("/").replace("/", "-") + ".mount"`.

Python dicts are embedded as association lists; `m[k]` is `dictGet`, which
raises `KeyError k` when the key is absent.  Fallible code returns
`Except PyError`.
-/

/-- The two kinds of exceptions the module can raise: the `AnsibleFilterError`
it constructs itself and the `KeyError` raised by `m[k]` on a missing key. -/
inductive PyError where
  | AnsibleFilterError (msg : String)
  | KeyError (key : String)
deriving DecidableEq, Repr

deriving instance DecidableEq for Except

/-- A mount record: a Python dict with string keys and values, embedded as an
association list (`ansible_facts` mount facts). -/
abbrev MountRecord := List (String × String)

/-- Python `m[k]` on a dict: the value bound to `k`, or `KeyError k` when the
key is absent. -/
def dictGet (r : MountRecord) (k : String) : Except PyError String :=
  match r.lookup k with
  | some v => Except.ok v
  | none => Except.error (PyError.KeyError k)

/-- The message of the error raised by `device_for_mount` when no record
matches: `f"No active mount found for '{mountpoint}'" + (f" with fstype
'{fstype}'" if fstype else "")`.  Python truthiness: the fstype clause is
appended only when `fstype` is neither `None` nor the empty string. -/
def noMountMsg (mountpoint : String) (fstype : Option String) : String :=
  "No active mount found for '" ++ mountpoint ++ "'" ++
    match fstype with
    | some f => if f = "" then "" else " with fstype '" ++ f ++ "'"
    | none => ""

/-- `device_for_mount(mountpoint, mounts, fstype=None)`: scan `mounts` in
order; return `m["device"]` for the first `m` with `m["mount"] == mountpoint`
and (`fstype is None or m["fstype"] == fstype`); otherwise raise
`AnsibleFilterError`.  Short-circuit evaluation of the Python condition is
preserved: `m["fstype"]` is only read when the mount matched and a fstype was
supplied, `m["device"]` only on the returned record. -/
def device_for_mount (mountpoint : String) (mounts : List MountRecord)
    (fstype : Option String) : Except PyError String :=
  match mounts with
  | [] => Except.error (PyError.AnsibleFilterError (noMountMsg mountpoint fstype))
  | r :: rest =>
    match dictGet r "mount" with
    | Except.error e => Except.error e
    | Except.ok mv =>
      if mv = mountpoint then
        match fstype with
        | none => dictGet r "device"
        | some f =>
          match dictGet r "fstype" with
          | Except.error e => Except.error e
          | Except.ok fv =>
            if fv = f then dictGet r "device"
            else device_for_mount mountpoint rest fstype
      else device_for_mount mountpoint rest fstype

/-- `uuid_for_mount(mountpoint, mounts)`: scan `mounts` in order; return
`m["uuid"]` for the first `m` with `m["mount"] == mountpoint`; otherwise raise
`AnsibleFilterError(f"No active mount found for '{mountpoint}'")`. -/
def uuid_for_mount (mountpoint : String) (mounts : List MountRecord) :
    Except PyError String :=
  match mounts with
  | [] => Except.error (PyError.AnsibleFilterError
      ("No active mount found for '" ++ mountpoint ++ "'"))
  | r :: rest =>
    match dictGet r "mount" with
    | Except.error e => Except.error e
    | Except.ok mv =>
      if mv = mountpoint then dictGet r "uuid"
      else uuid_for_mount mountpoint rest

/-- Python `path.lstrip("/")`: drop every leading `/` character. -/
def lstripSlash : List Char → List Char
  | [] => []
  | c :: cs => if c = '/' then lstripSlash cs else c :: cs

/-- One character of Python `str.replace("/", "-")`. -/
def slashToDash (c : Char) : Char := if c = '/' then '-' else c

/-- `to_systemd_mount_unit(path)`:
`path.lstrip("/").replace("/", "-") + ".mount"`. -/
def to_systemd_mount_unit (path : String) : String :=
  String.mk ((lstripSlash path.data).map slashToDash ++ ".mount".data)

/-- The spec-side transform, following the spec sentence word by word: "strip
all leading `/` characters, then replace every remaining `/` with `-`, then
append the literal suffix `.mount`" — stated with the library combinators
`List.dropWhile` and `List.map` to compare against the source embedding. -/
def to_systemd_mount_unit_specModel (path : String) : String :=
  String.mk (((path.data.dropWhile (fun c => c = '/')).map
    (fun c => if c = '/' then '-' else c)) ++ ".mount".data)

/-- Whether a string starts with the character `/`. -/
def startsWithSlash (s : String) : Bool :=
  match s.data with
  | [] => false
  | c :: _ => c == '/'

/-- The input contract on mount records: the four string fields `mount`,
`device`, `fstype`, `uuid` are all present. -/
def wfRecord (r : MountRecord) : Prop :=
  (r.lookup "mount").isSome = true ∧ (r.lookup "device").isSome = true ∧
    (r.lookup "fstype").isSome = true ∧ (r.lookup "uuid").isSome = true

instance (r : MountRecord) : Decidable (wfRecord r) := by
  unfold wfRecord
  infer_instance

/-- `needle` is a prefix of `hay` (character lists). -/
def isPrefixList : List Char → List Char → Bool
  | [], _ => true
  | _ :: _, [] => false
  | a :: as, b :: bs => a == b && isPrefixList as bs

/-- `needle` occurs contiguously somewhere in `hay` (character lists). -/
def containsSub (hay needle : List Char) : Bool :=
  isPrefixList needle hay ||
    match hay with
    | [] => false
    | _ :: t => containsSub t needle

/-- Substring containment on strings (Python `needle in hay`). -/
def strContainsSub (hay needle : String) : Bool :=
  containsSub hay.data needle.data

/-- The value bound to a filter name by the registration interface.  The three
filters have three distinct arities/types, so the mapping stores them behind
one sum type. -/
inductive FilterFn where
  | deviceF (f : String → List MountRecord → Option String → Except PyError String)
  | uuidF (f : String → List MountRecord → Except PyError String)
  | pathF (f : String → String)

/-- `FilterModule.filters()`: the mapping from filter name to function handed
to the templating engine. -/
def FilterModule.filters : List (String × FilterFn) :=
  [("device_for_mount", FilterFn.deviceF device_for_mount),
   ("uuid_for_mount", FilterFn.uuidF uuid_for_mount),
   ("to_systemd_mount_unit", FilterFn.pathF to_systemd_mount_unit)]

/-- A sample well-formed record mounted at `/data` (`ext4`). -/
def recData1 : MountRecord :=
  [("mount", "/data"), ("device", "/dev/sda1"), ("fstype", "ext4"), ("uuid", "abc-123")]

/-- A second well-formed record also mounted at `/data` (`xfs`), to exercise
first-match-wins and fstype filtering. -/
def recData2 : MountRecord :=
  [("mount", "/data"), ("device", "/dev/sdb2"), ("fstype", "xfs"), ("uuid", "def-456")]

/-- A sample well-formed record mounted at `/home`. -/
def recHome : MountRecord :=
  [("mount", "/home"), ("device", "/dev/sdc3"), ("fstype", "btrfs"), ("uuid", "ghi-789")]

/-- A record with no `mount` key, to exercise the `KeyError` branch. -/
def recNoMountKey : MountRecord := [("device", "/dev/sdx9")]

/-- The caller's store of mount records.  For the frame/purity claim the
functions are re-embedded in state-passing style: the loop walks a list of
record addresses, every field access is a read through the store, and every
step returns the store it was given together with its result, exactly as the
source's straight-line read-only code does. -/
abbrev Heap := List MountRecord

/-- Python `m[k]` where `m` is the record stored at address `i`: a read-only
store access. -/
def heapReadField (h : Heap) (i : Nat) (k : String) : Except PyError String :=
  match h[i]? with
  | some r => dictGet r k
  | none => Except.error (PyError.KeyError k)

/-- State-passing rendering of the `device_for_mount` loop: iterate the
addresses of the records, reading fields through the store and returning the
store alongside the result. -/
def deviceLoopH (mountpoint : String) (fstype : Option String) (h : Heap) :
    List Nat → Heap × Except PyError String
  | [] => (h, Except.error (PyError.AnsibleFilterError (noMountMsg mountpoint fstype)))
  | i :: rest =>
    match heapReadField h i "mount" with
    | Except.error e => (h, Except.error e)
    | Except.ok mv =>
      if mv = mountpoint then
        match fstype with
        | none => (h, heapReadField h i "device")
        | some f =>
          match heapReadField h i "fstype" with
          | Except.error e => (h, Except.error e)
          | Except.ok fv =>
            if fv = f then (h, heapReadField h i "device")
            else deviceLoopH mountpoint fstype h rest
      else deviceLoopH mountpoint fstype h rest

/-- State-passing rendering of the `uuid_for_mount` loop. -/
def uuidLoopH (mountpoint : String) (h : Heap) :
    List Nat → Heap × Except PyError String
  | [] => (h, Except.error (PyError.AnsibleFilterError
      ("No active mount found for '" ++ mountpoint ++ "'")))
  | i :: rest =>
    match heapReadField h i "mount" with
    | Except.error e => (h, Except.error e)
    | Except.ok mv =>
      if mv = mountpoint then (h, heapReadField h i "uuid")
      else uuidLoopH mountpoint h rest

theorem str_append_empty (s : String) : s ++ "" = s := by
  cases s with
  | mk d =>
    show String.mk (d ++ []) = String.mk d
    rw [List.append_nil]

theorem str_data_append (s t : String) : (s ++ t).data = s.data ++ t.data := by
  cases s
  cases t
  rfl

theorem isPrefixList_append (n rest : List Char) :
    isPrefixList n (n ++ rest) = true := by
  induction n with
  | nil => rfl
  | cons a as ih => simp [isPrefixList, ih]

theorem containsSub_append (pre n rest : List Char) :
    containsSub (pre ++ (n ++ rest)) n = true := by
  induction pre with
  | nil =>
    rw [List.nil_append]
    unfold containsSub
    rw [isPrefixList_append]
    rfl
  | cons a pre ih =>
    rw [List.cons_append]
    show (isPrefixList n (a :: (pre ++ (n ++ rest))) ||
      containsSub (pre ++ (n ++ rest)) n) = true
    rw [ih]
    exact Bool.or_true _

theorem strContainsSub_of_decomp (hay needle : String) (pre post : List Char)
    (h : hay.data = pre ++ (needle.data ++ post)) :
    strContainsSub hay needle = true := by
  unfold strContainsSub
  rw [h]
  exact containsSub_append pre needle.data post

theorem lstripSlash_eq_dropWhile (l : List Char) :
    lstripSlash l = l.dropWhile (fun c => c = '/') := by
  induction l with
  | nil => rfl
  | cons c cs ih =>
    by_cases h : c = '/'
    · simp [lstripSlash, List.dropWhile, h, ih]
    · simp [lstripSlash, List.dropWhile, h]

theorem slashToDash_ne_slash (c : Char) : (slashToDash c == '/') = false := by
  unfold slashToDash
  by_cases h : c = '/'
  · simp [h]
  · simp [h]

theorem noMountMsg_none (m : String) :
    noMountMsg m none = "No active mount found for '" ++ m ++ "'" := by
  unfold noMountMsg
  exact str_append_empty _

theorem device_ok_inv (m f d : String) (mounts : List MountRecord) :
    device_for_mount m mounts (some f) = Except.ok d →
    ∃ r ∈ mounts, r.lookup "mount" = some m ∧ r.lookup "fstype" = some f ∧
      r.lookup "device" = some d := by
  induction mounts with
  | nil => intro h; simp [device_for_mount] at h
  | cons r0 rest ih =>
    intro h
    cases hmv : r0.lookup "mount" with
    | none => simp [device_for_mount, dictGet, hmv] at h
    | some mv =>
      by_cases hm : mv = m
      · cases hfv : r0.lookup "fstype" with
        | none => simp [device_for_mount, dictGet, hmv, hfv, hm] at h
        | some fv =>
          by_cases hf : fv = f
          · cases hdv : r0.lookup "device" with
            | none => simp [device_for_mount, dictGet, hmv, hfv, hdv, hm, hf] at h
            | some dv =>
              simp [device_for_mount, dictGet, hmv, hfv, hdv, hm, hf] at h
              exact ⟨r0, List.mem_cons_self r0 rest,
                by rw [hmv, hm], by rw [hfv, hf], by rw [hdv, h]⟩
          · simp [device_for_mount, dictGet, hmv, hfv, hm, hf] at h
            obtain ⟨r, hr, h1, h2, h3⟩ := ih h
            exact ⟨r, List.mem_cons_of_mem r0 hr, h1, h2, h3⟩
      · simp [device_for_mount, dictGet, hmv, hm] at h
        obtain ⟨r, hr, h1, h2, h3⟩ := ih h
        exact ⟨r, List.mem_cons_of_mem r0 hr, h1, h2, h3⟩

theorem device_some_no_match (m f : String) (mounts : List MountRecord) :
    (∀ x ∈ mounts, wfRecord x) →
    (∀ r ∈ mounts, ¬(r.lookup "mount" = some m ∧ r.lookup "fstype" = some f)) →
    device_for_mount m mounts (some f) =
      Except.error (PyError.AnsibleFilterError (noMountMsg m (some f))) := by
  induction mounts with
  | nil => intro _ _; rfl
  | cons r0 rest ih =>
    intro hwf hno
    obtain ⟨hm0, _, hf0, _⟩ := hwf r0 (List.mem_cons_self r0 rest)
    obtain ⟨mv, hmv⟩ := Option.isSome_iff_exists.mp hm0
    obtain ⟨fv, hfv⟩ := Option.isSome_iff_exists.mp hf0
    have hrec := ih (fun x hx => hwf x (List.mem_cons_of_mem r0 hx))
      (fun x hx => hno x (List.mem_cons_of_mem r0 hx))
    by_cases hm : mv = m
    · have hff : ¬(fv = f) := by
        intro hf
        exact hno r0 (List.mem_cons_self r0 rest) ⟨by rw [hmv, hm], by rw [hfv, hf]⟩
      simp [device_for_mount, dictGet, hmv, hfv, hm, hff, hrec]
    · simp [device_for_mount, dictGet, hmv, hm, hrec]

theorem device_no_mount_match (m : String) (fstype : Option String)
    (mounts : List MountRecord) :
    (∀ x ∈ mounts, (x.lookup "mount").isSome = true) →
    (∀ r ∈ mounts, ¬(r.lookup "mount" = some m)) →
    device_for_mount m mounts fstype =
      Except.error (PyError.AnsibleFilterError (noMountMsg m fstype)) := by
  induction mounts with
  | nil => intro _ _; rfl
  | cons r0 rest ih =>
    intro hwf hno
    obtain ⟨mv, hmv⟩ := Option.isSome_iff_exists.mp
      (hwf r0 (List.mem_cons_self r0 rest))
    have hm : ¬(mv = m) := by
      intro h
      exact hno r0 (List.mem_cons_self r0 rest) (by rw [hmv, h])
    have hrec := ih (fun x hx => hwf x (List.mem_cons_of_mem r0 hx))
      (fun x hx => hno x (List.mem_cons_of_mem r0 hx))
    simp [device_for_mount, dictGet, hmv, hm, hrec]

theorem uuid_no_match (m : String) (mounts : List MountRecord) :
    (∀ x ∈ mounts, (x.lookup "mount").isSome = true) →
    (∀ r ∈ mounts, ¬(r.lookup "mount" = some m)) →
    uuid_for_mount m mounts =
      Except.error (PyError.AnsibleFilterError
        ("No active mount found for '" ++ m ++ "'")) := by
  induction mounts with
  | nil => intro _ _; rfl
  | cons r0 rest ih =>
    intro hwf hno
    obtain ⟨mv, hmv⟩ := Option.isSome_iff_exists.mp
      (hwf r0 (List.mem_cons_self r0 rest))
    have hm : ¬(mv = m) := by
      intro h
      exact hno r0 (List.mem_cons_self r0 rest) (by rw [hmv, h])
    have hrec := ih (fun x hx => hwf x (List.mem_cons_of_mem r0 hx))
      (fun x hx => hno x (List.mem_cons_of_mem r0 hx))
    simp [uuid_for_mount, dictGet, hmv, hm, hrec]

theorem uuid_first_match (m u : String) (mounts : List MountRecord) (r : MountRecord) :
    (∀ x ∈ mounts, (x.lookup "mount").isSome = true) →
    mounts.find? (fun x => x.lookup "mount" == some m) = some r →
    r.lookup "uuid" = some u →
    uuid_for_mount m mounts = Except.ok u := by
  induction mounts with
  | nil => intro _ hfind _; simp [List.find?] at hfind
  | cons r0 rest ih =>
    intro hwf hfind huuid
    obtain ⟨mv, hmv⟩ := Option.isSome_iff_exists.mp
      (hwf r0 (List.mem_cons_self r0 rest))
    by_cases hm : mv = m
    · have hp : (r0.lookup "mount" == some m) = true := by rw [hmv, hm]; simp
      have hstep : List.find? (fun x => List.lookup "mount" x == some m) (r0 :: rest) =
          some r0 := by
        simp [List.find?, hp]
      rw [hstep] at hfind
      injection hfind with hr
      subst hr
      simp [uuid_for_mount, dictGet, hmv, hm, huuid]
    · have hp : (r0.lookup "mount" == some m) = false := by
        rw [hmv]
        simp [hm]
      have hstep : List.find? (fun x => List.lookup "mount" x == some m) (r0 :: rest) =
          List.find? (fun x => List.lookup "mount" x == some m) rest := by
        simp [List.find?, hp]
      rw [hstep] at hfind
      have hrec := ih (fun x hx => hwf x (List.mem_cons_of_mem r0 hx)) hfind huuid
      simp [uuid_for_mount, dictGet, hmv, hm, hrec]

theorem device_total_wf (m : String) (fstype : Option String)
    (mounts : List MountRecord) :
    (∀ x ∈ mounts, wfRecord x) →
    (∃ v, device_for_mount m mounts fstype = Except.ok v) ∨
      (∃ msg, device_for_mount m mounts fstype =
        Except.error (PyError.AnsibleFilterError msg)) := by
  induction mounts with
  | nil => intro _; right; exact ⟨noMountMsg m fstype, rfl⟩
  | cons r0 rest ih =>
    intro hwf
    obtain ⟨hm0, hd0, hf0, _⟩ := hwf r0 (List.mem_cons_self r0 rest)
    obtain ⟨mv, hmv⟩ := Option.isSome_iff_exists.mp hm0
    obtain ⟨dv, hdv⟩ := Option.isSome_iff_exists.mp hd0
    obtain ⟨fv, hfv⟩ := Option.isSome_iff_exists.mp hf0
    have hrest := ih (fun x hx => hwf x (List.mem_cons_of_mem r0 hx))
    by_cases hm : mv = m
    · cases fstype with
      | none =>
        left
        exact ⟨dv, by simp [device_for_mount, dictGet, hmv, hm, hdv]⟩
      | some f =>
        by_cases hf : fv = f
        · left
          exact ⟨dv, by simp [device_for_mount, dictGet, hmv, hfv, hm, hf, hdv]⟩
        · have hstep : device_for_mount m (r0 :: rest) (some f) =
              device_for_mount m rest (some f) := by
            simp [device_for_mount, dictGet, hmv, hfv, hm, hf]
          rw [hstep]
          exact hrest
    · have hstep : device_for_mount m (r0 :: rest) fstype =
          device_for_mount m rest fstype := by
        simp [device_for_mount, dictGet, hmv, hm]
      rw [hstep]
      exact hrest

theorem uuid_total_wf (m : String) (mounts : List MountRecord) :
    (∀ x ∈ mounts, wfRecord x) →
    (∃ v, uuid_for_mount m mounts = Except.ok v) ∨
      (∃ msg, uuid_for_mount m mounts =
        Except.error (PyError.AnsibleFilterError msg)) := by
  induction mounts with
  | nil =>
    intro _
    right
    exact ⟨"No active mount found for '" ++ m ++ "'", rfl⟩
  | cons r0 rest ih =>
    intro hwf
    obtain ⟨hm0, _, _, hu0⟩ := hwf r0 (List.mem_cons_self r0 rest)
    obtain ⟨mv, hmv⟩ := Option.isSome_iff_exists.mp hm0
    obtain ⟨uv, huv⟩ := Option.isSome_iff_exists.mp hu0
    have hrest := ih (fun x hx => hwf x (List.mem_cons_of_mem r0 hx))
    by_cases hm : mv = m
    · left
      exact ⟨uv, by simp [uuid_for_mount, dictGet, hmv, hm, huv]⟩
    · have hstep : uuid_for_mount m (r0 :: rest) = uuid_for_mount m rest := by
        simp [uuid_for_mount, dictGet, hmv, hm]
      rw [hstep]
      exact hrest

theorem device_keyerror_of_missing_mount (m : String) (fstype : Option String)
    (bad : MountRecord) (post : List MountRecord) (pre : List MountRecord) :
    bad.lookup "mount" = none →
    (∀ r ∈ pre, (r.lookup "mount").isSome = true ∧ ¬(r.lookup "mount" = some m)) →
    device_for_mount m (pre ++ bad :: post) fstype =
      Except.error (PyError.KeyError "mount") := by
  induction pre with
  | nil =>
    intro hbad _
    simp [device_for_mount, dictGet, hbad]
  | cons r0 pres ih =>
    intro hbad hpre
    obtain ⟨h1, h2⟩ := hpre r0 (List.mem_cons_self r0 pres)
    obtain ⟨mv, hmv⟩ := Option.isSome_iff_exists.mp h1
    have hm : ¬(mv = m) := by
      intro h
      exact h2 (by rw [hmv, h])
    have hrec := ih hbad (fun x hx => hpre x (List.mem_cons_of_mem r0 hx))
    simp only [List.cons_append]
    simp [device_for_mount, dictGet, hmv, hm, hrec]

theorem uuid_keyerror_of_missing_mount (m : String)
    (bad : MountRecord) (post : List MountRecord) (pre : List MountRecord) :
    bad.lookup "mount" = none →
    (∀ r ∈ pre, (r.lookup "mount").isSome = true ∧ ¬(r.lookup "mount" = some m)) →
    uuid_for_mount m (pre ++ bad :: post) =
      Except.error (PyError.KeyError "mount") := by
  induction pre with
  | nil =>
    intro hbad _
    simp [uuid_for_mount, dictGet, hbad]
  | cons r0 pres ih =>
    intro hbad hpre
    obtain ⟨h1, h2⟩ := hpre r0 (List.mem_cons_self r0 pres)
    obtain ⟨mv, hmv⟩ := Option.isSome_iff_exists.mp h1
    have hm : ¬(mv = m) := by
      intro h
      exact h2 (by rw [hmv, h])
    have hrec := ih hbad (fun x hx => hpre x (List.mem_cons_of_mem r0 hx))
    simp only [List.cons_append]
    simp [uuid_for_mount, dictGet, hmv, hm, hrec]

theorem deviceLoopH_fst (mp : String) (fs : Option String) (h : Heap) :
    ∀ idxs, (deviceLoopH mp fs h idxs).fst = h := by
  intro idxs
  induction idxs with
  | nil => rfl
  | cons i rest ih =>
    cases hr : heapReadField h i "mount" with
    | error e => simp [deviceLoopH, hr]
    | ok mv =>
      by_cases hm : mv = mp
      · cases fs with
        | none => simp [deviceLoopH, hr, hm]
        | some f =>
          cases hf2 : heapReadField h i "fstype" with
          | error e => simp [deviceLoopH, hr, hm, hf2]
          | ok fv =>
            by_cases hf : fv = f
            · simp [deviceLoopH, hr, hm, hf2, hf]
            · simp [deviceLoopH, hr, hm, hf2, hf, ih]
      · simp [deviceLoopH, hr, hm, ih]

theorem uuidLoopH_fst (mp : String) (h : Heap) :
    ∀ idxs, (uuidLoopH mp h idxs).fst = h := by
  intro idxs
  induction idxs with
  | nil => rfl
  | cons i rest ih =>
    cases hr : heapReadField h i "mount" with
    | error e => simp [uuidLoopH, hr]
    | ok mv =>
      by_cases hm : mv = mp
      · simp [uuidLoopH, hr, hm]
      · simp [uuidLoopH, hr, hm, ih]

theorem deviceLoopH_snd (mp : String) (fs : Option String) (h : Heap) :
    ∀ idxs sub, idxs.map (fun i => h[i]?) = sub.map some →
      (deviceLoopH mp fs h idxs).snd = device_for_mount mp sub fs := by
  intro idxs
  induction idxs with
  | nil =>
    intro sub hsub
    cases sub with
    | nil => rfl
    | cons r t => simp at hsub
  | cons i rest ih =>
    intro sub hsub
    cases sub with
    | nil => simp at hsub
    | cons r t =>
      simp only [List.map] at hsub
      injection hsub with h1 h2
      have hread : ∀ k, heapReadField h i k = dictGet r k := by
        intro k
        simp [heapReadField, h1]
      cases hg : r.lookup "mount" with
      | none => simp [deviceLoopH, device_for_mount, hread, dictGet, hg]
      | some mv =>
        by_cases hm : mv = mp
        · cases fs with
          | none => simp [deviceLoopH, device_for_mount, hread, dictGet, hg, hm]
          | some f =>
            cases hgf : r.lookup "fstype" with
            | none => simp [deviceLoopH, device_for_mount, hread, dictGet, hg, hgf, hm]
            | some fv =>
              by_cases hf : fv = f
              · simp [deviceLoopH, device_for_mount, hread, dictGet, hg, hgf, hm, hf]
              · simp [deviceLoopH, device_for_mount, hread, dictGet, hg, hgf, hm, hf,
                  ih t h2]
        · simp [deviceLoopH, device_for_mount, hread, dictGet, hg, hm, ih t h2]

theorem uuidLoopH_snd (mp : String) (h : Heap) :
    ∀ idxs sub, idxs.map (fun i => h[i]?) = sub.map some →
      (uuidLoopH mp h idxs).snd = uuid_for_mount mp sub := by
  intro idxs
  induction idxs with
  | nil =>
    intro sub hsub
    cases sub with
    | nil => rfl
    | cons r t => simp at hsub
  | cons i rest ih =>
    intro sub hsub
    cases sub with
    | nil => simp at hsub
    | cons r t =>
      simp only [List.map] at hsub
      injection hsub with h1 h2
      have hread : ∀ k, heapReadField h i k = dictGet r k := by
        intro k
        simp [heapReadField, h1]
      cases hg : r.lookup "mount" with
      | none => simp [uuidLoopH, uuid_for_mount, hread, dictGet, hg]
      | some mv =>
        by_cases hm : mv = mp
        · simp [uuidLoopH, uuid_for_mount, hread, dictGet, hg, hm]
        · simp [uuidLoopH, uuid_for_mount, hread, dictGet, hg, hm, ih t h2]

theorem map_getElem?_range (h : List MountRecord) :
    (List.range h.length).map (fun i => h[i]?) = h.map some := by
  induction h with
  | nil => rfl
  | cons a t ih =>
    rw [List.length_cons, List.range_succ_eq_map]
    simp only [List.map, List.map_map, Function.comp]
    rw [List.getElem?_cons_zero]
    congr 1
    rw [← ih]
    apply List.map_congr_left
    intro i _
    exact List.getElem?_cons_succ

/-- C1: For every ordered list of mount records containing at least one record
whose `mount` field equals `m`, `device_for_mount m mounts none` (no fstype
filter) returns the `device` field of the first such record in list order;
when multiple records have the queried mount point, the earliest one wins.
The first matching record is pinned by `List.find?`. -/
theorem device_for_mount_first_match (m d : String) (mounts : List MountRecord)
    (r : MountRecord)
    (hwf : ∀ x ∈ mounts, (x.lookup "mount").isSome = true)
    (hfind : mounts.find? (fun x => x.lookup "mount" == some m) = some r)
    (hdev : r.lookup "device" = some d) :
    device_for_mount m mounts none = Except.ok d := by
  induction mounts with
  | nil => simp [List.find?] at hfind
  | cons r0 rest ih =>
    obtain ⟨mv, hmv⟩ := Option.isSome_iff_exists.mp
      (hwf r0 (List.mem_cons_self r0 rest))
    by_cases hm : mv = m
    · have hp : (r0.lookup "mount" == some m) = true := by rw [hmv, hm]; simp
      have hstep : List.find? (fun x => List.lookup "mount" x == some m) (r0 :: rest) =
          some r0 := by
        simp [List.find?, hp]
      rw [hstep] at hfind
      injection hfind with hr
      subst hr
      simp [device_for_mount, dictGet, hmv, hm, hdev]
    · have hp : (r0.lookup "mount" == some m) = false := by
        rw [hmv]
        simp [hm]
      have hstep : List.find? (fun x => List.lookup "mount" x == some m) (r0 :: rest) =
          List.find? (fun x => List.lookup "mount" x == some m) rest := by
        simp [List.find?, hp]
      rw [hstep] at hfind
      have hrec := ih (fun x hx => hwf x (List.mem_cons_of_mem r0 hx)) hfind
      simp [device_for_mount, dictGet, hmv, hm, hrec]

/-- Witness for C1 on a list with two records mounted at `/data`: the first
one (`/dev/sda1`) wins. -/
theorem device_for_mount_first_match_witness :
    (∀ x ∈ [recData1, recData2], (x.lookup "mount").isSome = true) ∧
    List.find? (fun x => List.lookup "mount" x == some "/data") [recData1, recData2] =
      some recData1 ∧
    recData1.lookup "device" = some "/dev/sda1" ∧
    device_for_mount "/data" [recData1, recData2] none = Except.ok "/dev/sda1" :=
  ⟨by decide, by decide, by decide,
    device_for_mount_first_match "/data" "/dev/sda1" [recData1, recData2] recData1
      (by decide) (by decide) (by decide)⟩

/-- C2: with a supplied fstype filter `f`, `device_for_mount` returns a
record's `device` only if that record has both `mount = m` and `fstype = f`
(first conjunct); when no record satisfies both — even when some record has
the right mount with a different fstype, which the second conjunct's
hypothesis allows — the call raises `AnsibleFilterError`, never a default
value (second conjunct). -/
theorem device_for_mount_fstype_filter (m f d : String) (mounts : List MountRecord)
    (hwf : ∀ x ∈ mounts, wfRecord x) :
    (device_for_mount m mounts (some f) = Except.ok d →
      ∃ r ∈ mounts, r.lookup "mount" = some m ∧ r.lookup "fstype" = some f ∧
        r.lookup "device" = some d) ∧
    ((∀ r ∈ mounts, ¬(r.lookup "mount" = some m ∧ r.lookup "fstype" = some f)) →
      device_for_mount m mounts (some f) =
        Except.error (PyError.AnsibleFilterError (noMountMsg m (some f)))) :=
  ⟨device_ok_inv m f d mounts, device_some_no_match m f mounts hwf⟩

/-- Witness for C2 at `f = "btrfs"` over records that do carry mount `/data`
with other fstypes: the lookup still fails. -/
theorem device_for_mount_fstype_filter_witness :
    (∀ x ∈ [recData1, recData2], wfRecord x) ∧
    ((device_for_mount "/data" [recData1, recData2] (some "btrfs") =
        Except.ok "/dev/sda1" →
      ∃ r ∈ [recData1, recData2], r.lookup "mount" = some "/data" ∧
        r.lookup "fstype" = some "btrfs" ∧ r.lookup "device" = some "/dev/sda1") ∧
    ((∀ r ∈ [recData1, recData2],
        ¬(r.lookup "mount" = some "/data" ∧ r.lookup "fstype" = some "btrfs")) →
      device_for_mount "/data" [recData1, recData2] (some "btrfs") =
        Except.error (PyError.AnsibleFilterError (noMountMsg "/data" (some "btrfs"))))) :=
  ⟨by decide,
    device_for_mount_fstype_filter "/data" "btrfs" "/dev/sda1" [recData1, recData2]
      (by decide)⟩

/-- C4: `to_systemd_mount_unit` strips all leading `/`, replaces every
remaining `/` with `-` and appends `.mount` (shown by agreement with the
spec-side transform `to_systemd_mount_unit_specModel` on every string — the
function is total by construction), and the two spec examples hold. -/
theorem to_systemd_mount_unit_transform :
    (∀ path : String,
      to_systemd_mount_unit path = to_systemd_mount_unit_specModel path) ∧
    to_systemd_mount_unit "/mnt/foo" = "mnt-foo.mount" ∧
    to_systemd_mount_unit "/" = ".mount" := by
  refine ⟨?_, by decide, by decide⟩
  intro path
  unfold to_systemd_mount_unit to_systemd_mount_unit_specModel
  rw [lstripSlash_eq_dropWhile,
    show slashToDash = (fun c => if c = '/' then '-' else c) from rfl]

/-- C6: the claimed conditional idempotence ("idempotent under re-application
only if the result has no further leading `/`") holds because its consequent
holds unconditionally: the result of `to_systemd_mount_unit` never starts
with `/` (leading slashes are stripped, inner ones become `-`, and the
appended suffix starts with `.`); the verification example also holds. -/
theorem to_systemd_mount_unit_no_leading_slash :
    (∀ path : String, startsWithSlash (to_systemd_mount_unit path) = false) ∧
    to_systemd_mount_unit "/a/b/c" = "a-b-c.mount" := by
  refine ⟨?_, by decide⟩
  intro path
  unfold to_systemd_mount_unit startsWithSlash
  cases h : lstripSlash path.data with
  | nil => rfl
  | cons c cs => exact slashToDash_ne_slash c

/-- C8: the registration interface `FilterModule.filters` exposes exactly the
three filter names, each bound to the function of the same name. -/
theorem filter_module_registration :
    FilterModule.filters.map Prod.fst =
      ["device_for_mount", "uuid_for_mount", "to_systemd_mount_unit"] ∧
    FilterModule.filters.lookup "device_for_mount" =
      some (FilterFn.deviceF device_for_mount) ∧
    FilterModule.filters.lookup "uuid_for_mount" =
      some (FilterFn.uuidF uuid_for_mount) ∧
    FilterModule.filters.lookup "to_systemd_mount_unit" =
      some (FilterFn.pathF to_systemd_mount_unit) := by
  refine ⟨rfl, rfl, rfl, rfl⟩

/-- C3 counterexample: with the supplied (but falsy) fstype filter `""` and no
matching record, the failure message does not name the fstype filter — it does
not even contain the word `fstype` — refuting the claim that the message names
the fstype filter whenever one is supplied. -/
theorem lookup_failure_message_counterexample :
    device_for_mount "/missing" [] (some "") =
      Except.error (PyError.AnsibleFilterError "No active mount found for '/missing'") ∧
    strContainsSub "No active mount found for '/missing'" "fstype" = false := by
  constructor
  · rfl
  · decide

/-- C3 (amended: the fstype filter is named in the failure message whenever a
NON-EMPTY fstype filter is supplied; Python tests the filter's truthiness, so
the supplied filter `""` is omitted): for a mount point absent from `mounts`,
both lookups fail with a message containing the mount point, and with a
non-empty fstype filter the device message also names the filter. -/
theorem lookup_failure_message_names_query (m f : String)
    (mounts : List MountRecord)
    (hwf : ∀ x ∈ mounts, (x.lookup "mount").isSome = true)
    (habs : ∀ r ∈ mounts, ¬(r.lookup "mount" = some m))
    (hf : ¬(f = "")) :
    (∃ msg, device_for_mount m mounts none =
        Except.error (PyError.AnsibleFilterError msg) ∧
      strContainsSub msg m = true) ∧
    (∃ msg, uuid_for_mount m mounts =
        Except.error (PyError.AnsibleFilterError msg) ∧
      strContainsSub msg m = true) ∧
    (∃ msg, device_for_mount m mounts (some f) =
        Except.error (PyError.AnsibleFilterError msg) ∧
      strContainsSub msg m = true ∧
      strContainsSub msg ("with fstype '" ++ f ++ "'") = true) := by
  refine ⟨⟨noMountMsg m none, device_no_mount_match m none mounts hwf habs, ?_⟩,
    ⟨"No active mount found for '" ++ m ++ "'", uuid_no_match m mounts hwf habs, ?_⟩,
    ⟨noMountMsg m (some f), device_no_mount_match m (some f) mounts hwf habs, ?_, ?_⟩⟩
  · apply strContainsSub_of_decomp _ _ "No active mount found for '".data "'".data
    rw [noMountMsg_none, str_data_append, str_data_append, List.append_assoc]
  · apply strContainsSub_of_decomp _ _ "No active mount found for '".data "'".data
    rw [str_data_append, str_data_append, List.append_assoc]
  · apply strContainsSub_of_decomp _ _ "No active mount found for '".data
      ("'".data ++ (" with fstype '".data ++ (f.data ++ "'".data)))
    show ("No active mount found for '" ++ m ++ "'" ++
      (if f = "" then "" else " with fstype '" ++ f ++ "'")).data = _
    rw [if_neg hf]
    simp [str_data_append, List.append_assoc]
  · apply strContainsSub_of_decomp _ _
      ("No active mount found for '".data ++ (m.data ++ ("'".data ++ [' ']))) []
    show ("No active mount found for '" ++ m ++ "'" ++
      (if f = "" then "" else " with fstype '" ++ f ++ "'")).data = _
    rw [if_neg hf]
    simp [str_data_append, List.append_assoc]

/-- Witness for the amended C3 at the absent mount point `/missing` with the
non-empty filter `xfs`. -/
theorem lookup_failure_message_names_query_witness :
    (∀ x ∈ [recHome], (x.lookup "mount").isSome = true) ∧
    (∀ r ∈ [recHome], ¬(r.lookup "mount" = some "/missing")) ∧
    ¬(("xfs" : String) = "") ∧
    ((∃ msg, device_for_mount "/missing" [recHome] none =
        Except.error (PyError.AnsibleFilterError msg) ∧
      strContainsSub msg "/missing" = true) ∧
    (∃ msg, uuid_for_mount "/missing" [recHome] =
        Except.error (PyError.AnsibleFilterError msg) ∧
      strContainsSub msg "/missing" = true) ∧
    (∃ msg, device_for_mount "/missing" [recHome] (some "xfs") =
        Except.error (PyError.AnsibleFilterError msg) ∧
      strContainsSub msg "/missing" = true ∧
      strContainsSub msg ("with fstype '" ++ "xfs" ++ "'") = true)) :=
  ⟨by decide, by decide, by decide,
    lookup_failure_message_names_query "/missing" "xfs" [recHome]
      (by decide) (by decide) (by decide)⟩

/-- C5: `uuid_for_mount` performs the identical first-match-in-order lookup as
`device_for_mount` without a fstype filter: the first record whose `mount`
equals the query (pinned by `List.find?`) yields its `uuid` field, and when no
record matches it raises a lookup failure with the very message
`device_for_mount` raises with no fstype filter. -/
theorem uuid_for_mount_lookup (m : String) (mounts : List MountRecord)
    (hwf : ∀ x ∈ mounts, wfRecord x) :
    (∀ r, mounts.find? (fun x => x.lookup "mount" == some m) = some r →
      ∃ u, r.lookup "uuid" = some u ∧ uuid_for_mount m mounts = Except.ok u) ∧
    (mounts.find? (fun x => x.lookup "mount" == some m) = none →
      uuid_for_mount m mounts =
        Except.error (PyError.AnsibleFilterError (noMountMsg m none)) ∧
      device_for_mount m mounts none =
        Except.error (PyError.AnsibleFilterError (noMountMsg m none))) := by
  constructor
  · intro r hfind
    have hmem : r ∈ mounts := List.mem_of_find?_eq_some hfind
    obtain ⟨_, _, _, hu⟩ := hwf r hmem
    obtain ⟨u, hu'⟩ := Option.isSome_iff_exists.mp hu
    exact ⟨u, hu',
      uuid_first_match m u mounts r (fun x hx => (hwf x hx).1) hfind hu'⟩
  · intro hfind
    have habs : ∀ r ∈ mounts, ¬(r.lookup "mount" = some m) := by
      intro r hr heq
      apply List.find?_eq_none.mp hfind r hr
      rw [heq]
      simp
    constructor
    · rw [noMountMsg_none]
      exact uuid_no_match m mounts (fun x hx => (hwf x hx).1) habs
    · exact device_no_mount_match m none mounts (fun x hx => (hwf x hx).1) habs

/-- Witness for C5: first-match `uuid` lookup over two `/data` records, and
the shared no-match failure at `/missing`. -/
theorem uuid_for_mount_lookup_witness :
    (∀ x ∈ [recData1, recData2], wfRecord x) ∧
    ((∀ r, List.find? (fun x => List.lookup "mount" x == some "/data")
        [recData1, recData2] = some r →
      ∃ u, r.lookup "uuid" = some u ∧
        uuid_for_mount "/data" [recData1, recData2] = Except.ok u) ∧
    (List.find? (fun x => List.lookup "mount" x == some "/data")
        [recData1, recData2] = none →
      uuid_for_mount "/data" [recData1, recData2] =
        Except.error (PyError.AnsibleFilterError (noMountMsg "/data" none)) ∧
      device_for_mount "/data" [recData1, recData2] none =
        Except.error (PyError.AnsibleFilterError (noMountMsg "/data" none)))) :=
  ⟨by decide, uuid_for_mount_lookup "/data" [recData1, recData2] (by decide)⟩

/-- C7: the three operations are pure reads/transforms — in the state-passing
embedding `deviceLoopH`/`uuidLoopH`, where every field access is a read
through the caller's store of records, each call returns the store unchanged
(no record is created, mutated or destroyed), and its result agrees with the
value-level embedding; `to_systemd_mount_unit` is a function of its string
argument, so its input is likewise untouched. -/
theorem mounts_module_no_mutation (mp : String) (fstype : Option String)
    (mounts : List MountRecord) :
    (deviceLoopH mp fstype mounts (List.range mounts.length)).fst = mounts ∧
    (uuidLoopH mp mounts (List.range mounts.length)).fst = mounts ∧
    (deviceLoopH mp fstype mounts (List.range mounts.length)).snd =
      device_for_mount mp mounts fstype ∧
    (uuidLoopH mp mounts (List.range mounts.length)).snd =
      uuid_for_mount mp mounts :=
  ⟨deviceLoopH_fst mp fstype mounts _, uuidLoopH_fst mp mounts _,
    deviceLoopH_snd mp fstype mounts _ mounts (map_getElem?_range mounts),
    uuidLoopH_snd mp mounts _ mounts (map_getElem?_range mounts)⟩

/-- C9: the supplied filter value `fstype = ""` is applied — a record can be
returned only if its `fstype` field equals `""` (first conjunct) — yet on
lookup failure the message is exactly the one that omits the fstype clause
(second conjunct), because the source guards the clause with the truthiness
of `fstype` rather than with whether it was supplied. -/
theorem device_for_mount_empty_fstype (m : String) (mounts : List MountRecord)
    (hwf : ∀ x ∈ mounts, wfRecord x) :
    (∀ d, device_for_mount m mounts (some "") = Except.ok d →
      ∃ r ∈ mounts, r.lookup "mount" = some m ∧ r.lookup "fstype" = some "" ∧
        r.lookup "device" = some d) ∧
    ((∀ r ∈ mounts, ¬(r.lookup "mount" = some m ∧ r.lookup "fstype" = some "")) →
      device_for_mount m mounts (some "") =
        Except.error (PyError.AnsibleFilterError
          ("No active mount found for '" ++ m ++ "'"))) := by
  constructor
  · intro d
    exact device_ok_inv m "" d mounts
  · intro hno
    rw [device_some_no_match m "" mounts hwf hno]
    have hmsg : noMountMsg m (some "") = "No active mount found for '" ++ m ++ "'" := by
      unfold noMountMsg
      exact str_append_empty _
    rw [hmsg]

/-- Witness for C9: `/data` is mounted (`ext4`), but the supplied filter `""`
matches no record, and the failure message omits the fstype clause. -/
theorem device_for_mount_empty_fstype_witness :
    (∀ x ∈ [recData1], wfRecord x) ∧
    ((∀ d, device_for_mount "/data" [recData1] (some "") = Except.ok d →
      ∃ r ∈ [recData1], r.lookup "mount" = some "/data" ∧
        r.lookup "fstype" = some "" ∧ r.lookup "device" = some d) ∧
    ((∀ r ∈ [recData1],
        ¬(r.lookup "mount" = some "/data" ∧ r.lookup "fstype" = some "")) →
      device_for_mount "/data" [recData1] (some "") =
        Except.error (PyError.AnsibleFilterError
          ("No active mount found for '" ++ "/data" ++ "'")))) :=
  ⟨by decide, device_for_mount_empty_fstype "/data" [recData1] (by decide)⟩

/-- C10: under the precondition that every record carries the required string
fields, both lookups return a value or the lookup failure — the key-error
branch is unreachable (first two conjuncts); without it, a record lacking
`mount` that is scanned before any match makes both functions fail with
`KeyError "mount"` instead (next two conjuncts), and a matching record
lacking `device`, `fstype` or `uuid` raises the corresponding `KeyError`
(closing concrete conjuncts). -/
theorem lookup_requires_wf_records (m : String) (fstype : Option String)
    (mounts pre post : List MountRecord) (bad : MountRecord)
    (hwf : ∀ x ∈ mounts, wfRecord x)
    (hbad : bad.lookup "mount" = none)
    (hpre : ∀ r ∈ pre, (r.lookup "mount").isSome = true ∧
      ¬(r.lookup "mount" = some m)) :
    ((∃ v, device_for_mount m mounts fstype = Except.ok v) ∨
      (∃ msg, device_for_mount m mounts fstype =
        Except.error (PyError.AnsibleFilterError msg))) ∧
    ((∃ v, uuid_for_mount m mounts = Except.ok v) ∨
      (∃ msg, uuid_for_mount m mounts =
        Except.error (PyError.AnsibleFilterError msg))) ∧
    device_for_mount m (pre ++ bad :: post) fstype =
      Except.error (PyError.KeyError "mount") ∧
    uuid_for_mount m (pre ++ bad :: post) =
      Except.error (PyError.KeyError "mount") ∧
    device_for_mount "/data" [[("mount", "/data")]] none =
      Except.error (PyError.KeyError "device") ∧
    device_for_mount "/data" [[("mount", "/data")]] (some "ext4") =
      Except.error (PyError.KeyError "fstype") ∧
    uuid_for_mount "/data" [[("mount", "/data")]] =
      Except.error (PyError.KeyError "uuid") :=
  ⟨device_total_wf m fstype mounts hwf, uuid_total_wf m mounts hwf,
    device_keyerror_of_missing_mount m fstype bad post pre hbad hpre,
    uuid_keyerror_of_missing_mount m bad post pre hbad hpre,
    by decide, by decide, by decide⟩

/-- Witness for C10: well-formed records keep the lookup contract, while a
record without a `mount` key after a non-matching record yields `KeyError`. -/
theorem lookup_requires_wf_records_witness :
    (∀ x ∈ [recData1], wfRecord x) ∧
    recNoMountKey.lookup "mount" = none ∧
    (∀ r ∈ [recHome], (r.lookup "mount").isSome = true ∧
      ¬(r.lookup "mount" = some "/data")) ∧
    (((∃ v, device_for_mount "/data" [recData1] none = Except.ok v) ∨
      (∃ msg, device_for_mount "/data" [recData1] none =
        Except.error (PyError.AnsibleFilterError msg))) ∧
    ((∃ v, uuid_for_mount "/data" [recData1] = Except.ok v) ∨
      (∃ msg, uuid_for_mount "/data" [recData1] =
        Except.error (PyError.AnsibleFilterError msg))) ∧
    device_for_mount "/data" ([recHome] ++ recNoMountKey :: []) none =
      Except.error (PyError.KeyError "mount") ∧
    uuid_for_mount "/data" ([recHome] ++ recNoMountKey :: []) =
      Except.error (PyError.KeyError "mount") ∧
    device_for_mount "/data" [[("mount", "/data")]] none =
      Except.error (PyError.KeyError "device") ∧
    device_for_mount "/data" [[("mount", "/data")]] (some "ext4") =
      Except.error (PyError.KeyError "fstype") ∧
    uuid_for_mount "/data" [[("mount", "/data")]] =
      Except.error (PyError.KeyError "uuid")) :=
  ⟨by decide, by decide, by decide,
    lookup_requires_wf_records "/data" none [recData1] [recHome] [] recNoMountKey
      (by decide) (by decide) (by decide)⟩
